import Mathlib

/-
Shallow embedding of src/05. Impl/ProjectX/app/student-dashboard.tsx
(the StudentDashboard screen): its data model, its event handlers and a
single-step event semantics over the UI state, translated from the source.
-/

namespace StudentDashboard

/-- Course record as consumed by the dashboard (fields used by the screen;
the `students` membership list may be absent, i.e. null/undefined in the
source, hence `Option`). -/
structure Course where
  id : String
  courseCode : String
  courseName : String
  students : Option (List String)
deriving DecidableEq, Repr

/-- The filter predicate of `fetchEnrolledCourses` (lines 74-77):
`course.students && course.students.includes(currentUserId)` ; a missing
`students` list is falsy, so the course is excluded. -/
def courseMatches (currentUserId : String) (course : Course) : Bool :=
  match course.students with
  | none => false
  | some s => s.contains currentUserId

/-- The course filtering of `fetchEnrolledCourses` (line 74):
`allCourses.filter (course => ...)`. -/
def enrolledCourses (allCourses : List Course) (currentUserId : String) : List Course :=
  allCourses.filter (courseMatches currentUserId)

/-- Spec-side predicate, written from the words of the spec (section 8,
property 1): the membership list of the course contains the user id. An
absent membership list contains nothing. -/
def specMembershipContains (U : String) (c : Course) : Bool :=
  match c.students with
  | none => false
  | some l => l.contains U

/-- The UI state cells of the screen (lines 22-32). The `sound` cell and the
animation value are omitted: they never influence the behaviour the claims
are about (playBeep catches its own errors internally). -/
structure DashState where
  courses : List Course
  isLoading : Bool
  error : Option String
  showLogoutConfirm : Bool
  isScannerVisible : Bool
  scanned : Bool
  hasPermission : Option Bool
  showSuccessModal : Bool
  showErrorModal : Bool
  errorMessage : String
deriving DecidableEq, Repr

/-- Initial state of the screen (useState initialisers, lines 22-32). -/
def initState : DashState :=
  { courses := []
    isLoading := true
    error := none
    showLogoutConfirm := false
    isScannerVisible := false
    scanned := false
    hasPermission := none
    showSuccessModal := false
    showErrorModal := false
    errorMessage := "" }

/-- Modelled from the spec: the outcome of `getCourses` from the external API
module (imported from ../lib/api, which is not present under src). Per the
spec (section 4.1) it either returns the full course collection, or throws
when the network call rejects or the response is malformed. -/
inductive GetCoursesOutcome where
  | success (allCourses : List Course)
  | failure
deriving DecidableEq, Repr

/-- `fetchEnrolledCourses` (lines 67-87): on success replaces the course list
with the filtered collection; on a throw sets the inline error text; the
`finally` clears the loading flag on both paths. -/
def fetchEnrolledCourses (currentUserId : String) (outcome : GetCoursesOutcome)
    (s : DashState) : DashState :=
  match outcome with
  | .success allCourses =>
      { s with courses := enrolledCourses allCourses currentUserId, isLoading := false }
  | .failure =>
      { s with error := some "Failed to fetch courses. Please try again.", isLoading := false }

/-- Result of `await response.json()` (line 130): either the body parsed as
JSON (whose `message` field may be absent), or the parse rejected (body
absent or not JSON) with some error text. -/
inductive JsonBody where
  | parsed (message : Option String)
  | invalid (parseErrMsg : String)
deriving DecidableEq, Repr

/-- Resolution of the attendance POST (line 118): the fetch either rejects
with an error carrying some message text, or resolves to a response with an
HTTP status and a body. -/
inductive SubmitResult where
  | networkError (msg : String)
  | response (status : Nat) (body : JsonBody)
deriving DecidableEq, Repr

/-- `response.ok`: status in the range 200-299. -/
def respOk (status : Nat) : Bool :=
  decide (200 ≤ status) && decide (status ≤ 299)

/-- Generic fallback message (lines 133 and 146). -/
def fallbackMsg : String := "Failed to record attendance"

/-- Fixed user-facing string for the network-unreachable class (line 145). -/
def networkFixedMsg : String :=
  "Unable to connect to the server. Please check your internet connection."

/-- The exact error text the catch compares against (line 144). -/
def networkFailedText : String := "Network request failed"

/-- Line 133: `new Error(result.message || fallback)` ; an absent or empty
(falsy) message yields the fallback. -/
def thrownMessage (message : Option String) : String :=
  match message with
  | none => fallbackMsg
  | some m => if m = "" then fallbackMsg else m

/-- Lines 144-146: the catch classifies by the error text: exactly
`Network request failed` maps to the fixed string; an empty (falsy) text
maps to the generic fallback; anything else is displayed verbatim. -/
def classifyError (msg : String) : String :=
  if msg = networkFailedText then networkFixedMsg
  else if msg = "" then fallbackMsg
  else msg

/-- One dispatched attendance POST: the JSON body fields of line 124. -/
structure AttendancePost where
  qrData : String
  studentId : String
deriving DecidableEq, Repr

/-- Result of running one handler: the new state, the POST requests
dispatched during it, the alert raised (title, message) if any, and the
delay of a timer armed via setTimeout, if any. -/
structure StepOut where
  state : DashState
  posts : List AttendancePost
  alert : Option (String × String)
  timeout : Option Nat
deriving DecidableEq, Repr

/-- A handler that only changes state. -/
def stateOnly (s : DashState) : StepOut :=
  { state := s, posts := [], alert := none, timeout := none }

/-- The synchronous prefix of `handleBarCodeScanned` (line 114): the latch is
set before any awaited work. -/
def decodeSync (s : DashState) : DashState :=
  { s with scanned := true }

/-- The rest of `handleBarCodeScanned` after the latch is set (lines
115-149): one POST is dispatched; a fetch rejection or a body-parse
rejection lands in the catch; a resolved response has its body parsed
BEFORE `response.ok` is checked (line 130 precedes line 132), so a 2xx
response with an unparseable body also lands in the catch; a non-ok
response throws `result.message || fallback`; the catch sets the classified
message, shows the error modal and clears the latch; the success path shows
the success modal and arms a 2000 ms timer. -/
def submitContinuation (currentUserId data : String) (result : SubmitResult)
    (s : DashState) : StepOut :=
  let post : AttendancePost := { qrData := data, studentId := currentUserId }
  let catchWith : String → StepOut := fun msg =>
    { state :=
        { s with
          errorMessage := classifyError msg
          showErrorModal := true
          scanned := false }
      posts := [post]
      alert := none
      timeout := none }
  match result with
  | .networkError m => catchWith m
  | .response status body =>
      match body with
      | .invalid perr => catchWith perr
      | .parsed message =>
          if respOk status then
            { state := { s with showSuccessModal := true }
              posts := [post]
              alert := none
              timeout := some 2000 }
          else catchWith (thrownMessage message)

/-- `handleBarCodeScanned` (lines 112-150): the synchronous latch set
followed by the awaited submission. -/
def handleBarCodeScanned (currentUserId data : String) (result : SubmitResult)
    (s : DashState) : StepOut :=
  submitContinuation currentUserId data result (decodeSync s)

/-- `handleScanPress` (lines 152-162). -/
def handleScanPress (s : DashState) : StepOut :=
  match s.hasPermission with
  | none =>
      { state := s, posts := [], alert := some ("Error", "Requesting camera permission..."),
        timeout := none }
  | some false =>
      { state := s, posts := [], alert := some ("Error", "No access to camera"),
        timeout := none }
  | some true =>
      { state := { s with isScannerVisible := true }, posts := [], alert := none,
        timeout := none }

/-- The body of the success setTimeout (lines 137-141). -/
def successTimeout (s : DashState) : DashState :=
  { s with showSuccessModal := false, isScannerVisible := false, scanned := false }

/-- The UI events of the screen. `decode` carries the decoded payload and the
resolution of the submission it triggers; `fireSuccessTimeout` is the firing
of the timer armed on submission success. -/
inductive Event where
  | fetchCourses (outcome : GetCoursesOutcome)
  | permissionResult (granted : Bool)
  | scanPress
  | decode (data : String) (result : SubmitResult)
  | fireSuccessTimeout
  | closeScanner
  | scanAgain
  | backPress
  | logoutPress
  | dismissError
  | dismissSuccess
  | cancelLogout
deriving DecidableEq, Repr

/-- One event step of the screen. Guards reflect what the JSX renders: the
camera view exists only while the scanner is visible and its
`onBarcodeScanned` is undefined while `scanned` is true (line 315); the
close button (lines 289-294) and the Scan Again button (lines 352-354) exist
only in the states that render them; back press (lines 41-44) and the logout
button (line 257) open the logout confirmation; modal dismissals (lines 377,
395, 406, 419, 431) clear their own flag. -/
def step (uid : String) (e : Event) (s : DashState) : StepOut :=
  match e with
  | .fetchCourses o => stateOnly (fetchEnrolledCourses uid o s)
  | .permissionResult g => stateOnly { s with hasPermission := some g }
  | .scanPress => handleScanPress s
  | .decode d r =>
      if s.isScannerVisible && !s.scanned then handleBarCodeScanned uid d r s
      else stateOnly s
  | .fireSuccessTimeout => stateOnly (successTimeout s)
  | .closeScanner =>
      if s.isScannerVisible then stateOnly { s with isScannerVisible := false, scanned := false }
      else stateOnly s
  | .scanAgain =>
      if s.isScannerVisible && s.scanned then stateOnly { s with scanned := false }
      else stateOnly s
  | .backPress => stateOnly { s with showLogoutConfirm := true }
  | .logoutPress => stateOnly { s with showLogoutConfirm := true }
  | .dismissError =>
      if s.showErrorModal then stateOnly { s with showErrorModal := false } else stateOnly s
  | .dismissSuccess =>
      if s.showSuccessModal then stateOnly { s with showSuccessModal := false } else stateOnly s
  | .cancelLogout =>
      if s.showLogoutConfirm then stateOnly { s with showLogoutConfirm := false } else stateOnly s

/-- Run a sequence of events from a state. -/
def runEvents (uid : String) (es : List Event) (s : DashState) : DashState :=
  es.foldl (fun t e => (step uid e t).state) s

/-- Number of dialog flags that an update switched from off to on. -/
def newDialogs (s t : DashState) : Nat :=
  (if t.showSuccessModal && !s.showSuccessModal then 1 else 0) +
  (if t.showErrorModal && !s.showErrorModal then 1 else 0) +
  (if t.showLogoutConfirm && !s.showLogoutConfirm then 1 else 0)

/-- Whether a submission resolution lands in the catch branch. -/
def submitFails (r : SubmitResult) : Bool :=
  match r with
  | .networkError _ => true
  | .response _ (.invalid _) => true
  | .response status (.parsed _) => !respOk status

/-- C1: for every fetched collection C and user id U, the displayed list is
exactly the filter of C by membership of U (the subsequence of C, in
original order, of the courses whose membership list contains U). -/
theorem c1_displayed_list_is_membership_filter (C : List Course) (U : String) :
    enrolledCourses C U = C.filter (specMembershipContains U)
    ∧ (enrolledCourses C U).Sublist C
    ∧ ∀ c : Course, c ∈ enrolledCourses C U ↔ c ∈ C ∧ specMembershipContains U c = true := by
  have hpred : ∀ c : Course, courseMatches U c = specMembershipContains U c := by
    intro c
    cases h : c.students <;> simp [courseMatches, specMembershipContains, h]
  refine ⟨?_, ?_, ?_⟩
  · unfold enrolledCourses
    exact List.filter_congr (fun c _ => hpred c)
  · exact List.filter_sublist C
  · intro c
    unfold enrolledCourses
    rw [List.mem_filter, hpred]

/-- C10: a fetched course whose membership list is absent is excluded from
the displayed list (the filter tests existence of the list before testing
inclusion, so it is total and rejects such a course). -/
theorem c10_absent_membership_excluded (C : List Course) (U : String) (c : Course)
    (_hmem : c ∈ C) (hnone : c.students = none) : c ∉ enrolledCourses C U := by
  intro hin
  unfold enrolledCourses at hin
  rw [List.mem_filter] at hin
  rcases hin with ⟨-, hc⟩
  rw [courseMatches, hnone] at hc
  cases hc

/-- Witness for C10 at a concrete course with an absent membership list. -/
theorem c10_absent_membership_excluded_witness :
    ({ id := "c1", courseCode := "CS101", courseName := "Intro", students := none } : Course)
      ∉ enrolledCourses
        [{ id := "c1", courseCode := "CS101", courseName := "Intro", students := none }] "u1" :=
  c10_absent_membership_excluded _ "u1" _ (by simp) rfl

/-- C9: when the course fetch throws (network rejection or malformed
response), the surfaced error is exactly the fixed string, the displayed
course list is left unchanged, and the loading flag is cleared; on success
the loading flag is cleared as well (finally-equivalent). -/
theorem c9_fetch_failure_handling (uid : String) (s : DashState) :
    (fetchEnrolledCourses uid .failure s).error
        = some "Failed to fetch courses. Please try again."
    ∧ (fetchEnrolledCourses uid .failure s).courses = s.courses
    ∧ (fetchEnrolledCourses uid .failure s).isLoading = false
    ∧ ∀ cs : List Course, (fetchEnrolledCourses uid (.success cs) s).isLoading = false :=
  ⟨rfl, rfl, rfl, fun _ => rfl⟩

/-- C5: on submission success (2xx status with a parsed body) the success
dialog is shown, the scanner stays open and the latch stays set, and a timer
of exactly 2000 ms is armed; the firing of that timer (and nothing in the
submission step itself) hides the dialog, closes the scanner and clears the
latch. -/
theorem c5_success_dialog_and_timeout (uid data : String) (status : Nat)
    (message : Option String) (s : DashState) (hok : respOk status = true) :
    (handleBarCodeScanned uid data (.response status (.parsed message)) s).state.showSuccessModal
        = true
    ∧ (handleBarCodeScanned uid data (.response status (.parsed message)) s).state.isScannerVisible
        = s.isScannerVisible
    ∧ (handleBarCodeScanned uid data (.response status (.parsed message)) s).state.scanned = true
    ∧ (handleBarCodeScanned uid data (.response status (.parsed message)) s).timeout = some 2000
    ∧ (successTimeout
        (handleBarCodeScanned uid data (.response status (.parsed message)) s).state).showSuccessModal
        = false
    ∧ (successTimeout
        (handleBarCodeScanned uid data (.response status (.parsed message)) s).state).isScannerVisible
        = false
    ∧ (successTimeout
        (handleBarCodeScanned uid data (.response status (.parsed message)) s).state).scanned
        = false := by
  simp [handleBarCodeScanned, submitContinuation, decodeSync, successTimeout, hok]

/-- Witness for C5 at a concrete 200 response. -/
theorem c5_success_dialog_and_timeout_witness :
    (handleBarCodeScanned "u1" "QR" (.response 200 (.parsed none)) initState).state.showSuccessModal
        = true
    ∧ (handleBarCodeScanned "u1" "QR" (.response 200 (.parsed none)) initState).state.isScannerVisible
        = initState.isScannerVisible
    ∧ (handleBarCodeScanned "u1" "QR" (.response 200 (.parsed none)) initState).state.scanned = true
    ∧ (handleBarCodeScanned "u1" "QR" (.response 200 (.parsed none)) initState).timeout = some 2000
    ∧ (successTimeout
        (handleBarCodeScanned "u1" "QR" (.response 200 (.parsed none)) initState).state).showSuccessModal
        = false
    ∧ (successTimeout
        (handleBarCodeScanned "u1" "QR" (.response 200 (.parsed none)) initState).state).isScannerVisible
        = false
    ∧ (successTimeout
        (handleBarCodeScanned "u1" "QR" (.response 200 (.parsed none)) initState).state).scanned
        = false :=
  c5_success_dialog_and_timeout "u1" "QR" 200 none initState (by decide)

/-- C2: the latch is set by the synchronous prefix of the decode handler
before any awaited work; while the latch is true no event dispatches a POST
and a decode event has no effect at all (the camera callback is unbound);
and the latch only transitions from false to true through a decode event,
so without an intervening reset it is set at most once. -/
theorem c2_latch_discipline (uid : String) :
    (∀ s : DashState, (decodeSync s).scanned = true)
    ∧ (∀ (e : Event) (s : DashState), s.scanned = true → (step uid e s).posts = [])
    ∧ (∀ (d : String) (r : SubmitResult) (s : DashState), s.scanned = true →
        step uid (.decode d r) s = stateOnly s)
    ∧ (∀ (e : Event) (s : DashState), s.scanned = false →
        (step uid e s).state.scanned = true →
        ∃ (d : String) (r : SubmitResult), e = .decode d r) := by
  refine ⟨fun _ => rfl, ?_, ?_, ?_⟩
  · intro e s h
    cases e with
    | fetchCourses o => cases o <;> rfl
    | permissionResult g => rfl
    | scanPress =>
        cases hp : s.hasPermission with
        | none => simp [step, handleScanPress, hp]
        | some b => cases b <;> simp [step, handleScanPress, hp]
    | decode d r => simp [step, h, stateOnly]
    | fireSuccessTimeout => rfl
    | closeScanner => simp only [step]; split <;> rfl
    | scanAgain => simp only [step]; split <;> rfl
    | backPress => rfl
    | logoutPress => rfl
    | dismissError => simp only [step]; split <;> rfl
    | dismissSuccess => simp only [step]; split <;> rfl
    | cancelLogout => simp only [step]; split <;> rfl
  · intro d r s h
    simp [step, h]
  · intro e s h0 h1
    cases e with
    | decode d r => exact ⟨d, r, rfl⟩
    | fetchCourses o =>
        exact absurd h1 (by cases o <;> simp [step, stateOnly, fetchEnrolledCourses, h0])
    | permissionResult g => exact absurd h1 (by simp [step, stateOnly, h0])
    | scanPress =>
        refine absurd h1 ?_
        cases hp : s.hasPermission with
        | none => simp [step, handleScanPress, hp, h0]
        | some b => cases b <;> simp [step, handleScanPress, hp, h0]
    | fireSuccessTimeout => exact absurd h1 (by simp [step, stateOnly, successTimeout])
    | closeScanner =>
        exfalso
        simp only [step] at h1
        split at h1 <;> simp [stateOnly, h0] at h1
    | scanAgain =>
        exfalso
        simp only [step] at h1
        split at h1 <;> simp [stateOnly, h0] at h1
    | backPress => exact absurd h1 (by simp [step, stateOnly, h0])
    | logoutPress => exact absurd h1 (by simp [step, stateOnly, h0])
    | dismissError =>
        exfalso
        simp only [step] at h1
        split at h1 <;> simp [stateOnly, h0] at h1
    | dismissSuccess =>
        exfalso
        simp only [step] at h1
        split at h1 <;> simp [stateOnly, h0] at h1
    | cancelLogout =>
        exfalso
        simp only [step] at h1
        split at h1 <;> simp [stateOnly, h0] at h1

/-- Witness for C2: with the latch set, a decode event dispatches no POST. -/
theorem c2_latch_discipline_witness :
    (step "u1" (.decode "QR" (.response 200 (.parsed none)))
        { initState with isScannerVisible := true, scanned := true }).posts = [] :=
  (c2_latch_discipline "u1").2.1 (.decode "QR" (.response 200 (.parsed none)))
    { initState with isScannerVisible := true, scanned := true } rfl

/-- C6 (amended): pressing the scan affordance with permission unknown never
opens the scanner and raises the alert "Requesting camera permission...";
with permission denied it never opens the scanner and raises the alert
"No access to camera" (no trailing period in the code); with permission
granted it opens the scanner. -/
theorem c6_scan_press_permission_gate (s : DashState) :
    (s.hasPermission = none → handleScanPress s
        = { state := s, posts := [],
            alert := some ("Error", "Requesting camera permission..."), timeout := none })
    ∧ (s.hasPermission = some false → handleScanPress s
        = { state := s, posts := [],
            alert := some ("Error", "No access to camera"), timeout := none })
    ∧ (s.hasPermission = some true → handleScanPress s
        = { state := { s with isScannerVisible := true }, posts := [],
            alert := none, timeout := none }) := by
  refine ⟨fun h => ?_, fun h => ?_, fun h => ?_⟩ <;> simp [handleScanPress, h]

/-- Witness for C6 at the granted state. -/
theorem c6_scan_press_permission_gate_witness :
    handleScanPress { initState with hasPermission := some true }
      = { state := { initState with hasPermission := some true, isScannerVisible := true },
          posts := [], alert := none, timeout := none } :=
  (c6_scan_press_permission_gate { initState with hasPermission := some true }).2.2 rfl

/-- C6 counterexample: with permission denied the alert message raised is
"No access to camera", which is not the string "No access to camera." that
the claim states. -/
theorem c6_denied_alert_text_counterexample :
    (handleScanPress { initState with hasPermission := some false }).alert
        = some ("Error", "No access to camera")
    ∧ ("No access to camera" : String) ≠ "No access to camera." :=
  ⟨rfl, by decide⟩

/-- C3 (amended): a response with 2xx status whose body parses as JSON
yields success (the success dialog is shown, the error dialog is not newly
raised); a response whose body is absent or not JSON yields failure even
when the status is 2xx, because the body is parsed before the ok-check; a
non-2xx response with a JSON body yields failure. -/
theorem c3_outcome_classification (uid data : String) (status : Nat) (s : DashState) :
    (∀ message : Option String, respOk status = true →
        (handleBarCodeScanned uid data (.response status (.parsed message)) s).state.showSuccessModal
            = true
        ∧ (handleBarCodeScanned uid data (.response status (.parsed message)) s).state.showErrorModal
            = s.showErrorModal)
    ∧ (∀ perr : String,
        (handleBarCodeScanned uid data (.response status (.invalid perr)) s).state.showErrorModal
            = true
        ∧ (handleBarCodeScanned uid data (.response status (.invalid perr)) s).state.showSuccessModal
            = s.showSuccessModal)
    ∧ (∀ message : Option String, respOk status = false →
        (handleBarCodeScanned uid data (.response status (.parsed message)) s).state.showErrorModal
            = true
        ∧ (handleBarCodeScanned uid data (.response status (.parsed message)) s).state.showSuccessModal
            = s.showSuccessModal) := by
  refine ⟨fun message hok => ?_, fun perr => ?_, fun message hnok => ?_⟩ <;>
    simp [handleBarCodeScanned, submitContinuation, decodeSync, *]

/-- Witness for C3 at a concrete 200 response with a JSON body. -/
theorem c3_outcome_classification_witness :
    (handleBarCodeScanned "u1" "QR" (.response 200 (.parsed (some "ok"))) initState).state.showSuccessModal
        = true
    ∧ (handleBarCodeScanned "u1" "QR" (.response 200 (.parsed (some "ok"))) initState).state.showErrorModal
        = initState.showErrorModal :=
  (c3_outcome_classification "u1" "QR" 200 initState).1 (some "ok") (by decide)

/-- C3 counterexample: a 200 response whose body is not JSON lands in the
catch (response.json() is awaited before response.ok is checked), so the
outcome is the error dialog, not success. -/
theorem c3_2xx_invalid_body_counterexample :
    (handleBarCodeScanned "u1" "QR" (.response 200 (.invalid "Unexpected end of JSON input"))
        initState).state.showErrorModal = true
    ∧ (handleBarCodeScanned "u1" "QR" (.response 200 (.invalid "Unexpected end of JSON input"))
        initState).state.showSuccessModal = false :=
  ⟨rfl, rfl⟩

/-- The generic fallback is a different string from the network text. -/
theorem fallbackMsg_ne_networkFailedText : fallbackMsg ≠ networkFailedText := by decide

/-- The generic fallback is nonempty. -/
theorem fallbackMsg_ne_empty : fallbackMsg ≠ "" := by decide

/-- The network text is nonempty. -/
theorem networkFailedText_ne_empty : networkFailedText ≠ "" := by decide

/-- C4 (amended): the failure message is classified by the error text alone:
text exactly "Network request failed" (a network-unreachable fetch
rejection, or equally a server message equal to that string) displays the
fixed reassurance string; a server-rejected failure with a nonempty message
M other than "Network request failed" displays exactly M; a server-rejected
failure with an absent or empty message displays the generic fallback. -/
theorem c4_failure_message_classification (uid data : String) (s : DashState) :
    ((handleBarCodeScanned uid data (.networkError networkFailedText) s).state.errorMessage
        = networkFixedMsg)
    ∧ (∀ (status : Nat) (M : String), respOk status = false → M ≠ "" → M ≠ networkFailedText →
        (handleBarCodeScanned uid data (.response status (.parsed (some M))) s).state.errorMessage
            = M)
    ∧ (∀ status : Nat, respOk status = false →
        (handleBarCodeScanned uid data
            (.response status (.parsed (some networkFailedText))) s).state.errorMessage
          = networkFixedMsg)
    ∧ (∀ status : Nat, respOk status = false →
        (handleBarCodeScanned uid data (.response status (.parsed none)) s).state.errorMessage
            = fallbackMsg
        ∧ (handleBarCodeScanned uid data (.response status (.parsed (some ""))) s).state.errorMessage
            = fallbackMsg) := by
  refine ⟨?_, fun status M hnok hM1 hM2 => ?_, fun status hnok => ?_, fun status hnok => ?_⟩
  · simp [handleBarCodeScanned, submitContinuation, decodeSync, classifyError]
  · simp [handleBarCodeScanned, submitContinuation, decodeSync, thrownMessage, classifyError,
      hnok, hM1, hM2]
  · simp [handleBarCodeScanned, submitContinuation, decodeSync, thrownMessage, classifyError,
      hnok, networkFailedText_ne_empty]
  · constructor <;>
      simp [handleBarCodeScanned, submitContinuation, decodeSync, thrownMessage, classifyError,
        hnok, fallbackMsg_ne_networkFailedText, fallbackMsg_ne_empty]

/-- Witness for C4 at a concrete 400 response carrying a server message. -/
theorem c4_failure_message_classification_witness :
    (handleBarCodeScanned "u1" "QR"
        (.response 400 (.parsed (some "Session expired"))) initState).state.errorMessage
      = "Session expired" :=
  (c4_failure_message_classification "u1" "QR" initState).2.1 400 "Session expired"
    (by decide) (by decide) (by decide)

/-- C4 counterexample: a server-rejected response (status 400) whose body
message is exactly "Network request failed" is displayed as the fixed
network string, not as the server message. -/
theorem c4_server_message_collision_counterexample :
    (handleBarCodeScanned "u1" "QR"
        (.response 400 (.parsed (some "Network request failed"))) initState).state.errorMessage
      = "Unable to connect to the server. Please check your internet connection."
    ∧ ("Unable to connect to the server. Please check your internet connection." : String)
      ≠ "Network request failed" :=
  ⟨rfl, by decide⟩

/-- C7 (amended): a set latch is cleared by the Scan Again retry, the
successful-completion timeout, or closing the scanner, and by no other
event; additionally, inside the decode handler the catch branch of a failed
submission clears the latch (so a failed submission ends with the latch
clear, enabling a retry within the same session). -/
theorem c7_latch_clearing_events (uid : String) :
    (∀ (e : Event) (s : DashState), s.scanned = true → (step uid e s).state.scanned = false →
        e = .scanAgain ∨ e = .fireSuccessTimeout ∨ e = .closeScanner)
    ∧ (∀ (d : String) (r : SubmitResult) (s : DashState), submitFails r = true →
        (submitContinuation uid d r s).state.scanned = false) := by
  constructor
  · intro e s h0 h1
    cases e with
    | scanAgain => exact Or.inl rfl
    | fireSuccessTimeout => exact Or.inr (Or.inl rfl)
    | closeScanner => exact Or.inr (Or.inr rfl)
    | fetchCourses o =>
        exact absurd h1 (by cases o <;> simp [step, stateOnly, fetchEnrolledCourses, h0])
    | permissionResult g => exact absurd h1 (by simp [step, stateOnly, h0])
    | scanPress =>
        refine absurd h1 ?_
        cases hp : s.hasPermission with
        | none => simp [step, handleScanPress, hp, h0]
        | some b => cases b <;> simp [step, handleScanPress, hp, h0]
    | decode d r => exact absurd h1 (by simp [step, stateOnly, h0])
    | backPress => exact absurd h1 (by simp [step, stateOnly, h0])
    | logoutPress => exact absurd h1 (by simp [step, stateOnly, h0])
    | dismissError =>
        refine absurd h1 ?_
        simp only [step]
        split <;> simp [stateOnly, h0]
    | dismissSuccess =>
        refine absurd h1 ?_
        simp only [step]
        split <;> simp [stateOnly, h0]
    | cancelLogout =>
        refine absurd h1 ?_
        simp only [step]
        split <;> simp [stateOnly, h0]
  · intro d r s h
    cases r with
    | networkError m => rfl
    | response status body =>
        cases body with
        | invalid perr => rfl
        | parsed message =>
            have hnok : respOk status = false := by
              simpa [submitFails] using h
            simp [submitContinuation, hnok]

/-- Witness for C7: a failed submission (fetch rejection) ends with the
latch clear. -/
theorem c7_latch_clearing_events_witness :
    (submitContinuation "u1" "QR" (.networkError "boom") initState).state.scanned = false :=
  (c7_latch_clearing_events "u1").2 "QR" (.networkError "boom") initState rfl

/-- C7 counterexample: closing the scanner clears a set latch, yet it is
neither the Scan Again retry nor the successful-completion timeout, so those
two are not the only latch-clearing events. -/
theorem c7_close_clears_latch_counterexample :
    (step "u1" .closeScanner
        { initState with isScannerVisible := true, scanned := true }).state.scanned = false
    ∧ Event.closeScanner ≠ Event.scanAgain
    ∧ Event.closeScanner ≠ Event.fireSuccessTimeout :=
  ⟨rfl, by decide, by decide⟩

/-- C8 (amended): mutual exclusion of the three dialogs is not enforced
across events (a reachable state can have two dialogs active at once); what
does hold is that every single event activates at most one dialog, exclusive
presentation being left to the caller. -/
theorem c8_step_activates_at_most_one_dialog (uid : String) (e : Event) (s : DashState) :
    newDialogs s (step uid e s).state ≤ 1 := by
  cases e with
  | fetchCourses o =>
      cases o <;>
        (simp only [step, stateOnly, fetchEnrolledCourses, newDialogs]
         split_ifs <;> simp_all)
  | permissionResult g =>
      simp only [step, stateOnly, newDialogs]
      split_ifs <;> simp_all
  | scanPress =>
      cases hp : s.hasPermission with
      | none =>
          simp only [step, handleScanPress, hp, newDialogs]
          split_ifs <;> simp_all
      | some b =>
          cases b <;>
            (simp only [step, handleScanPress, hp, newDialogs]
             split_ifs <;> simp_all)
  | decode d r =>
      simp only [step]
      split
      · cases r with
        | networkError m =>
            simp only [handleBarCodeScanned, submitContinuation, decodeSync, newDialogs]
            split_ifs <;> simp_all
        | response status body =>
            cases body with
            | invalid perr =>
                simp only [handleBarCodeScanned, submitContinuation, decodeSync, newDialogs]
                split_ifs <;> simp_all
            | parsed message =>
                simp only [handleBarCodeScanned, submitContinuation, decodeSync, newDialogs]
                split_ifs <;> simp_all
      · simp only [stateOnly, newDialogs]
        split_ifs <;> simp_all
  | fireSuccessTimeout =>
      simp only [step, stateOnly, successTimeout, newDialogs]
      split_ifs <;> simp_all
  | closeScanner =>
      simp only [step]
      split <;>
        (simp only [stateOnly, newDialogs]
         split_ifs <;> simp_all)
  | scanAgain =>
      simp only [step]
      split <;>
        (simp only [stateOnly, newDialogs]
         split_ifs <;> simp_all)
  | backPress =>
      simp only [step, stateOnly, newDialogs]
      split_ifs <;> simp_all
  | logoutPress =>
      simp only [step, stateOnly, newDialogs]
      split_ifs <;> simp_all
  | dismissError =>
      simp only [step]
      split <;>
        (simp only [stateOnly, newDialogs]
         split_ifs <;> simp_all)
  | dismissSuccess =>
      simp only [step]
      split <;>
        (simp only [stateOnly, newDialogs]
         split_ifs <;> simp_all)
  | cancelLogout =>
      simp only [step]
      split <;>
        (simp only [stateOnly, newDialogs]
         split_ifs <;> simp_all)

/-- C8 counterexample: from the initial state, granting permission, opening
the scanner, a successful decode and then a hardware back press reach a
state where both the success dialog and the logout confirmation are active
at once. -/
theorem c8_two_dialogs_reachable_counterexample :
    (runEvents "u1"
        [.permissionResult true, .scanPress,
         .decode "QR" (.response 200 (.parsed none)), .backPress] initState).showSuccessModal
      = true
    ∧ (runEvents "u1"
        [.permissionResult true, .scanPress,
         .decode "QR" (.response 200 (.parsed none)), .backPress] initState).showLogoutConfirm
      = true :=
  ⟨rfl, rfl⟩

end StudentDashboard
